import Mathlib

/-!
Shallow embedding of the IPPcode21 interpreter (`interpret.py`):
the value model (`Var` and its operator methods), the frame system
(`Frames`), the instruction list with call stack and labels
(`Insts`), the per-opcode executors, the XML root-element check and
the READ input handling, together with the statistics (`--hot`)
pipeline.  Theorems below settle the claims about these components.
-/

namespace IPP

/-- Exit codes of the interpreter (`class Code(Enum)` in the source). -/
inductive Code where
  | SUCCESS
  | BAD_PARAM
  | OPEN_ERR
  | WRITE_ERR
  | BAD_XML
  | BAD_STRUCT
  | UNDEF_REDEF
  | BAD_OPERAND_TYPE
  | UNDEF_VAR
  | UNDEF_FRAME
  | MISSING_VAL
  | BAD_OPERAND_VAL
  | STRING_ERR
deriving DecidableEq

/-- Numeric value of each exit code. -/
def Code.value : Code → Nat
  | .SUCCESS => 0
  | .BAD_PARAM => 10
  | .OPEN_ERR => 11
  | .WRITE_ERR => 12
  | .BAD_XML => 31
  | .BAD_STRUCT => 32
  | .UNDEF_REDEF => 52
  | .BAD_OPERAND_TYPE => 53
  | .UNDEF_VAR => 54
  | .UNDEF_FRAME => 55
  | .MISSING_VAL => 56
  | .BAD_OPERAND_VAL => 57
  | .STRING_ERR => 58

/-- Outcome of a piece of interpreter code: a normal value, a classified
`exit_err` termination, or an unhandled Python exception (`crash`, e.g. a
`NameError`), which aborts the process with a traceback instead of a
classified exit code. -/
inductive Res (α : Type) where
  | ok (a : α)
  | err (c : Code)
  | crash
deriving DecidableEq

/-- Sequencing of interpreter steps: a classified exit or a crash aborts
everything after it. -/
def Res.bind {α β : Type} (x : Res α) (f : α → Res β) : Res β :=
  match x with
  | .ok a => f a
  | .err c => .err c
  | .crash => .crash

instance : Monad Res where
  pure := .ok
  bind := Res.bind

/-- Payload of a decoded operand or stored variable: the Python object kept
in `Var.value` (an `int`, a `float`, or a `str`; booleans and nil are kept
as the strings `true`/`false`/`nil` by the source). -/
inductive PyVal where
  | int (n : ℤ)
  | flt (q : ℚ)
  | str (s : String)
deriving DecidableEq

/-- Python `==` on payloads (`int`/`float` compare numerically, mixed
number/string compares unequal). -/
def pyEqv : PyVal → PyVal → Bool
  | .int n, .int m => decide (n = m)
  | .flt q, .flt r => decide (q = r)
  | .int n, .flt r => decide ((n : ℚ) = r)
  | .flt q, .int m => decide (q = (m : ℚ))
  | .str s, .str t => decide (s = t)
  | _, _ => false

/-- Python `==` lifted to optional payloads (`None == None` is `True`,
`None` compares unequal to everything else). -/
def pyEqOpt : Option PyVal → Option PyVal → Bool
  | some x, some y => pyEqv x y
  | none, none => true
  | _, _ => false

/-- Python `<` on payloads; comparing a string with a number (or with
`None`) raises `TypeError`, i.e. crashes. -/
def pyLtv : PyVal → PyVal → Res Bool
  | .int n, .int m => .ok (decide (n < m))
  | .flt q, .flt r => .ok (decide (q < r))
  | .int n, .flt r => .ok (decide ((n : ℚ) < r))
  | .flt q, .int m => .ok (decide (q < (m : ℚ)))
  | .str s, .str t => .ok (decide (s < t))
  | _, _ => .crash

/-- Python `>` on payloads. -/
def pyGtv : PyVal → PyVal → Res Bool
  | .int n, .int m => .ok (decide (m < n))
  | .flt q, .flt r => .ok (decide (r < q))
  | .int n, .flt r => .ok (decide (r < (n : ℚ)))
  | .flt q, .int m => .ok (decide ((m : ℚ) < q))
  | .str s, .str t => .ok (decide (t < s))
  | _, _ => .crash

/-- Python `+` on payloads (string concatenation for `str`, numeric
addition otherwise; mixing strings and numbers raises `TypeError`). -/
def pyAddv : PyVal → PyVal → Res PyVal
  | .int n, .int m => .ok (.int (n + m))
  | .flt q, .flt r => .ok (.flt (q + r))
  | .int n, .flt r => .ok (.flt ((n : ℚ) + r))
  | .flt q, .int m => .ok (.flt (q + (m : ℚ)))
  | .str s, .str t => .ok (.str (s ++ t))
  | _, _ => .crash

/-- Python `-` on payloads. -/
def pySubv : PyVal → PyVal → Res PyVal
  | .int n, .int m => .ok (.int (n - m))
  | .flt q, .flt r => .ok (.flt (q - r))
  | .int n, .flt r => .ok (.flt ((n : ℚ) - r))
  | .flt q, .int m => .ok (.flt (q - (m : ℚ)))
  | _, _ => .crash

/-- Python `*` on numeric payloads (the interpreter only multiplies after
checking both operands are `int` or both `float`). -/
def pyMulv : PyVal → PyVal → Res PyVal
  | .int n, .int m => .ok (.int (n * m))
  | .flt q, .flt r => .ok (.flt (q * r))
  | .int n, .flt r => .ok (.flt ((n : ℚ) * r))
  | .flt q, .int m => .ok (.flt (q * (m : ℚ)))
  | _, _ => .crash

/-- Python `//` on payloads; the source only reaches this with two `int`
payloads (guarded by the type check), `ZeroDivisionError` crashes. -/
def pyFloordivv : PyVal → PyVal → Res PyVal
  | .int n, .int m => if m = 0 then .crash else .ok (.int (Int.fdiv n m))
  | _, _ => .crash

/-- Python `/` on payloads; the source only reaches this with two `float`
payloads (guarded by the type check), `ZeroDivisionError` crashes. -/
def pyTruedivv : PyVal → PyVal → Res PyVal
  | .flt q, .flt r => if r = 0 then .crash else .ok (.flt (q / r))
  | _, _ => .crash

/-- Lift a payload operation to optional payloads; an operation on `None`
raises `TypeError`, i.e. crashes. -/
def pyOpOpt (f : PyVal → PyVal → Res PyVal) : Option PyVal → Option PyVal → Res PyVal
  | some x, some y => f x y
  | _, _ => .crash

/-- Same lifting for boolean-valued payload operations. -/
def pyCmpOpt (f : PyVal → PyVal → Res Bool) : Option PyVal → Option PyVal → Res Bool
  | some x, some y => f x y
  | _, _ => .crash

/-- A variable or operand value: `class Var`, with a type tag string and a
payload (`None`/`None` for a defined-but-uninitialized variable). -/
structure Var where
  type : Option String
  value : Option PyVal
deriving DecidableEq

/-- `Var('int', n)` -/
def intVar (n : ℤ) : Var := ⟨some "int", some (.int n)⟩

/-- `Var('float', q)` -/
def fltVar (q : ℚ) : Var := ⟨some "float", some (.flt q)⟩

/-- `Var('string', s)` -/
def strVar (s : String) : Var := ⟨some "string", some (.str s)⟩

/-- `Var('bool', 'true'/'false')` -/
def boolVar (b : Bool) : Var := ⟨some "bool", some (.str (if b then "true" else "false"))⟩

/-- `Var('nil', 'nil')` -/
def nilVar : Var := ⟨some "nil", some (.str "nil")⟩

/-- `Var(None, None)`: a defined but uninitialized variable. -/
def uninitVar : Var := ⟨none, none⟩

/-- `Var.__add__`: same types required; `int`, `float` or `string` add
their payloads, anything else is `BAD_OPERAND_TYPE`. -/
def varAdd (a b : Var) : Res Var :=
  if a.type = b.type then
    if a.type = some "int" ∨ a.type = some "float" ∨ a.type = some "string" then
      (pyOpOpt pyAddv a.value b.value).bind fun v => .ok ⟨a.type, some v⟩
    else .err .BAD_OPERAND_TYPE
  else .err .BAD_OPERAND_TYPE

/-- `Var.__sub__`: same types required; only `int` and `float` subtract. -/
def varSub (a b : Var) : Res Var :=
  if a.type = b.type then
    if a.type = some "int" ∨ a.type = some "float" then
      (pyOpOpt pySubv a.value b.value).bind fun v => .ok ⟨a.type, some v⟩
    else .err .BAD_OPERAND_TYPE
  else .err .BAD_OPERAND_TYPE

/-- `Var.__mul__`: same types required; only `int` and `float` multiply. -/
def varMul (a b : Var) : Res Var :=
  if a.type = b.type then
    if a.type = some "int" ∨ a.type = some "float" then
      (pyOpOpt pyMulv a.value b.value).bind fun v => .ok ⟨a.type, some v⟩
    else .err .BAD_OPERAND_TYPE
  else .err .BAD_OPERAND_TYPE

/-- `Var.__floordiv__`: both `int`; a zero divisor is `BAD_OPERAND_VAL`. -/
def varFloordiv (a b : Var) : Res Var :=
  if a.type = b.type then
    if a.type = some "int" then
      if pyEqOpt b.value (some (.int 0)) then .err .BAD_OPERAND_VAL
      else (pyOpOpt pyFloordivv a.value b.value).bind fun v => .ok ⟨a.type, some v⟩
    else .err .BAD_OPERAND_TYPE
  else .err .BAD_OPERAND_TYPE

/-- `Var.__truediv__`: both `float`; a zero divisor is `BAD_OPERAND_VAL`. -/
def varTruediv (a b : Var) : Res Var :=
  if a.type = b.type then
    if a.type = some "float" then
      if pyEqOpt b.value (some (.flt 0)) then .err .BAD_OPERAND_VAL
      else (pyOpOpt pyTruedivv a.value b.value).bind fun v => .ok ⟨a.type, some v⟩
    else .err .BAD_OPERAND_TYPE
  else .err .BAD_OPERAND_TYPE

/-- `Var.__lt__`: `int`/`float` and `string` compare payloads, `bool` has
`false < true`; `nil` (or any other tag) is `BAD_OPERAND_TYPE`. -/
def varLt (a b : Var) : Res Var :=
  if a.type = b.type then
    if a.type = some "int" ∨ a.type = some "float" then
      (pyCmpOpt pyLtv a.value b.value).bind fun r => .ok (boolVar r)
    else if a.type = some "bool" then
      .ok (boolVar (pyEqOpt a.value (some (.str "false")) && pyEqOpt b.value (some (.str "true"))))
    else if a.type = some "string" then
      (pyCmpOpt pyLtv a.value b.value).bind fun r => .ok (boolVar r)
    else .err .BAD_OPERAND_TYPE
  else .err .BAD_OPERAND_TYPE

/-- `Var.__gt__`. -/
def varGt (a b : Var) : Res Var :=
  if a.type = b.type then
    if a.type = some "int" ∨ a.type = some "float" then
      (pyCmpOpt pyGtv a.value b.value).bind fun r => .ok (boolVar r)
    else if a.type = some "bool" then
      .ok (boolVar (pyEqOpt a.value (some (.str "true")) && pyEqOpt b.value (some (.str "false"))))
    else if a.type = some "string" then
      (pyCmpOpt pyGtv a.value b.value).bind fun r => .ok (boolVar r)
    else .err .BAD_OPERAND_TYPE
  else .err .BAD_OPERAND_TYPE

/-- `Var.__eq__`: equal tags compare payloads; otherwise, if either side is
`nil` the result is `false`; any other mismatch is `BAD_OPERAND_TYPE`. -/
def varEq (a b : Var) : Res Var :=
  if a.type = b.type then
    if a.type = some "int" ∨ a.type = some "float" then
      .ok (boolVar (pyEqOpt a.value b.value))
    else if a.type = some "string" ∨ a.type = some "bool" ∨ a.type = some "nil" then
      .ok (boolVar (pyEqOpt a.value b.value))
    else .err .BAD_OPERAND_TYPE
  else if a.type = some "nil" ∨ b.type = some "nil" then .ok (boolVar false)
  else .err .BAD_OPERAND_TYPE

/-- `Var.__ne__`: negation of `__eq__`, with one `nil` side giving `true`. -/
def varNe (a b : Var) : Res Var :=
  if a.type = b.type then
    if a.type = some "int" ∨ a.type = some "float" then
      .ok (boolVar (!pyEqOpt a.value b.value))
    else if a.type = some "string" ∨ a.type = some "bool" ∨ a.type = some "nil" then
      .ok (boolVar (!pyEqOpt a.value b.value))
    else .err .BAD_OPERAND_TYPE
  else if a.type = some "nil" ∨ b.type = some "nil" then .ok (boolVar true)
  else .err .BAD_OPERAND_TYPE

/-- `Var.__and__`: both `bool`. -/
def varAnd (a b : Var) : Res Var :=
  if a.type = b.type then
    if a.type = some "bool" then
      .ok (boolVar (pyEqOpt a.value (some (.str "true")) && pyEqOpt b.value (some (.str "true"))))
    else .err .BAD_OPERAND_TYPE
  else .err .BAD_OPERAND_TYPE

/-- `Var.__or__`: both `bool`. -/
def varOr (a b : Var) : Res Var :=
  if a.type = b.type then
    if a.type = some "bool" then
      .ok (boolVar (pyEqOpt a.value (some (.str "true")) || pyEqOpt b.value (some (.str "true"))))
    else .err .BAD_OPERAND_TYPE
  else .err .BAD_OPERAND_TYPE

/-- `Var.__invert__`: `bool` only. -/
def varInvert (a : Var) : Res Var :=
  if a.type = some "bool" then
    .ok (boolVar (pyEqOpt a.value (some (.str "false"))))
  else .err .BAD_OPERAND_TYPE

/-- Lookup in an association list (a Python dict keyed by strings). -/
def alook {α : Type} : List (String × α) → String → Option α
  | [], _ => none
  | p :: t, n => if p.1 = n then some p.2 else alook t n

/-- Dict assignment `d[n] = v`: replace the entry in place if the key is
present, append otherwise (Python dicts preserve insertion order). -/
def aset {α : Type} : List (String × α) → String → α → List (String × α)
  | [], n, v => [(n, v)]
  | p :: t, n, v => if p.1 = n then (n, v) :: t else p :: aset t n v

/-- Split a character list at the first `@` (code point 64). -/
def splitAtSep : List Char → Option (List Char × List Char)
  | [] => none
  | c :: t =>
    if c = Char.ofNat 64 then some ([], t)
    else (splitAtSep t).map (fun p => (c :: p.1, p.2))

/-- Python `id.split('@', 1)` followed by unpacking into two names: `none`
models the `ValueError` raised when there is no `@` in the identifier. -/
def pySplit1 (id : String) : Option (String × String) :=
  (splitAtSep id.data).map (fun p => (String.mk p.1, String.mk p.2))

/-- ASCII upper-casing of one character. -/
def asciiUpper (c : Char) : Char :=
  if 97 ≤ c.toNat ∧ c.toNat ≤ 122 then Char.ofNat (c.toNat - 32) else c

/-- ASCII lower-casing of one character. -/
def asciiLower (c : Char) : Char :=
  if 65 ≤ c.toNat ∧ c.toNat ≤ 90 then Char.ofNat (c.toNat + 32) else c

/-- Python `s.upper()` (ASCII model). -/
def pyUpper (s : String) : String := String.mk (s.data.map asciiUpper)

/-- Python `s.lower()` (ASCII model). -/
def pyLower (s : String) : String := String.mk (s.data.map asciiLower)

/-- Python `s.strip()`: surrounding whitespace removed. -/
def pyStrip (s : String) : String :=
  String.mk (((s.data.dropWhile Char.isWhitespace).reverse.dropWhile Char.isWhitespace).reverse)

/-- The frame system: local-frame stack, global frame, temporary frame with
its existence flag, and the running maximum of initialized variables
(`class Frames`). -/
structure Frames where
  lf_stack : List (List (String × Var))
  gf : List (String × Var)
  tf : List (String × Var)
  tf_created : Bool
  init_vars : ℕ
deriving DecidableEq

/-- Frames at interpreter start: empty global frame, no TF, no LF. -/
def Frames.empty : Frames := ⟨[], [], [], false, 0⟩

/-- `Frames._check_init_vars`: count of variables with a non-`None` value
across TF, the topmost LF (or nothing) and GF. -/
def Frames.countInit (fr : Frames) : ℕ :=
  (fr.tf.filter (fun p => p.2.value.isSome)).length +
  (((fr.lf_stack.head?).getD []).filter (fun p => p.2.value.isSome)).length +
  (fr.gf.filter (fun p => p.2.value.isSome)).length

/-- Update `init_vars` to the new count when it grew. -/
def Frames.noteInit (fr : Frames) : Frames :=
  { fr with init_vars := max fr.init_vars fr.countInit }

/-- Second half of `Frames.getvar`: look up the name in the resolved frame,
check it is defined, and optionally check it is initialized. -/
def getFromFrame (f : List (String × Var)) (vn : String) (check_init : Bool) : Res Var :=
  match alook f vn with
  | none => .err .UNDEF_VAR
  | some v =>
    if check_init = true ∧ (v.type = none ∨ v.value = none) then .err .MISSING_VAL
    else .ok v

/-- `Frames.getvar`: split the identifier, resolve the frame (dead frame is
`UNDEF_FRAME`; a frame prefix other than LF/TF/GF leaves the local variable
`frame` unbound in the source, a crash), then fetch the variable.  The
identifier is the Python object from the operand payload; splitting a
non-string crashes. -/
def Frames.getvarP (fr : Frames) (idv : PyVal) (check_init : Bool) : Res Var :=
  match idv with
  | .str id =>
    match pySplit1 id with
    | none => .crash
    | some (fn, vn) =>
      if fn = "LF" then
        match fr.lf_stack with
        | [] => .err .UNDEF_FRAME
        | f :: _ => getFromFrame f vn check_init
      else if fn = "TF" then
        if fr.tf_created = false then .err .UNDEF_FRAME
        else getFromFrame fr.tf vn check_init
      else if fn = "GF" then getFromFrame fr.gf vn check_init
      else .crash
  | _ => .crash

/-- `Frames.setvar`: resolve like `getvar` with `check_init=False`, then
replace the slot contents and update the initialized-variables maximum. -/
def Frames.setvarP (fr : Frames) (idv : PyVal) (v : Var) : Res Frames :=
  match idv with
  | .str id =>
    match pySplit1 id with
    | none => .crash
    | some (fn, vn) =>
      if fn = "LF" then
        match fr.lf_stack with
        | [] => .err .UNDEF_FRAME
        | f :: rest =>
          match alook f vn with
          | none => .err .UNDEF_VAR
          | some _ => .ok (Frames.noteInit { fr with lf_stack := aset f vn v :: rest })
      else if fn = "TF" then
        if fr.tf_created = false then .err .UNDEF_FRAME
        else
          match alook fr.tf vn with
          | none => .err .UNDEF_VAR
          | some _ => .ok (Frames.noteInit { fr with tf := aset fr.tf vn v })
      else if fn = "GF" then
        match alook fr.gf vn with
        | none => .err .UNDEF_VAR
        | some _ => .ok (Frames.noteInit { fr with gf := aset fr.gf vn v })
      else .crash
  | _ => .crash

/-- `Frames.defvar`: resolve the frame, refuse a duplicate name
(`UNDEF_REDEF`), insert `Var(None, None)`. -/
def Frames.defvarP (fr : Frames) (idv : PyVal) : Res Frames :=
  match idv with
  | .str id =>
    match pySplit1 id with
    | none => .crash
    | some (fn, vn) =>
      if fn = "LF" then
        match fr.lf_stack with
        | [] => .err .UNDEF_FRAME
        | f :: rest =>
          if (alook f vn).isSome then .err .UNDEF_REDEF
          else .ok { fr with lf_stack := (f ++ [(vn, uninitVar)]) :: rest }
      else if fn = "TF" then
        if fr.tf_created = false then .err .UNDEF_FRAME
        else if (alook fr.tf vn).isSome then .err .UNDEF_REDEF
        else .ok { fr with tf := fr.tf ++ [(vn, uninitVar)] }
      else if fn = "GF" then
        if (alook fr.gf vn).isSome then .err .UNDEF_REDEF
        else .ok { fr with gf := fr.gf ++ [(vn, uninitVar)] }
      else .crash
  | _ => .crash

/-- A decoded instruction argument: the declared `type` attribute and the
decoded payload (`arg_orders[arg_i] = {'type': ..., 'value': ...}`). -/
structure Arg where
  type : String
  value : PyVal
deriving DecidableEq

/-- A literal `int` operand. -/
def intArg (n : ℤ) : Arg := ⟨"int", .int n⟩

/-- A literal `float` operand. -/
def fltArg (q : ℚ) : Arg := ⟨"float", .flt q⟩

/-- A literal `string` operand. -/
def strArg (s : String) : Arg := ⟨"string", .str s⟩

/-- A literal `nil` operand. -/
def nilArg : Arg := ⟨"nil", .str "nil"⟩

/-- A literal `bool` operand. -/
def boolArg (b : Bool) : Arg := ⟨"bool", .str (if b then "true" else "false")⟩

/-- A variable operand referring to identifier `id` (e.g. `GF@x`). -/
def varArg (id : String) : Arg := ⟨"var", .str id⟩

/-- `Frames.const_var`: a literal operand becomes a `Var` of its declared
type; a `var` operand is resolved in the frames.  For any other kind the
source returns `None` and the caller crashes on the first attribute
access. -/
def Frames.const_var (fr : Frames) (arg : Arg) (check_init : Bool) : Res Var :=
  if arg.type = "int" ∨ arg.type = "string" ∨ arg.type = "bool" ∨ arg.type = "nil" ∨
      arg.type = "float" then
    .ok ⟨some arg.type, some arg.value⟩
  else if arg.type = "var" then fr.getvarP arg.value check_init
  else .crash

/-- An instruction: upper-cased opcode and decoded argument list. -/
structure Instr where
  opcode : String
  args : List Arg
deriving DecidableEq

/-- First argument's payload, when it is a string (`args[0]['value']`). -/
def argFirstStr (i : Instr) : Option String :=
  match i.args.head? with
  | some a =>
    match a.value with
    | .str s => some s
    | _ => none
  | none => none

/-- The instruction list with program counter, call stack, label map and
executed-instruction counter (`class Instructions`). -/
structure Insts where
  instructions : List Instr
  pc : ℕ
  calls : List ℕ
  labels : List (String × ℕ)
deriving DecidableEq

/-- `Instructions.add`: append the instruction; a `LABEL` instruction also
registers its name, mapped to the length of the list after the append
(i.e. the index just past the `LABEL`); a duplicate label name exits with
`UNDEF_REDEF`. -/
def Insts.addInst (s : Insts) (i : Instr) : Res Insts :=
  let insts := s.instructions ++ [i]
  if i.opcode = "LABEL" then
    match argFirstStr i with
    | some name =>
      if (alook s.labels name).isSome then .err .UNDEF_REDEF
      else .ok { s with instructions := insts, labels := aset s.labels name insts.length }
    | none => .crash
  else .ok { s with instructions := insts }

/-- `Instructions.next`: fetch the instruction at `pc` and advance `pc`
(and the executed counter); `none` once past the end. -/
def Insts.next (s : Insts) : Option (Instr × Insts) :=
  if h : s.pc < s.instructions.length then
    some (s.instructions.get ⟨s.pc, h⟩, { s with pc := s.pc + 1 })
  else none

/-- `Instructions.jump`: set `pc` to the label's registered index; an
unknown label exits with `UNDEF_REDEF`. -/
def Insts.jump (s : Insts) (label : String) : Res Insts :=
  match alook s.labels label with
  | none => .err .UNDEF_REDEF
  | some t => .ok { s with pc := t }

/-- `Instructions.call`: push the current `pc` on the call stack, then
jump to the label. -/
def Insts.call (s : Insts) (label : String) : Res Insts :=
  Insts.jump { s with calls := s.pc :: s.calls } label

/-- `Instructions.return_`: pop the call stack into `pc`; an empty call
stack exits with `MISSING_VAL`. -/
def Insts.ret (s : Insts) : Res Insts :=
  match s.calls with
  | [] => .err .MISSING_VAL
  | p :: rest => .ok { s with pc := p, calls := rest }

/-- `InstructionExecutor._ADD`: evaluate both symb operands, require
`int`/`int` or `float`/`float`, store the sum in the target variable. -/
def instADD (fr : Frames) (a0 a1 a2 : Arg) : Res Frames := do
  let s1 ← fr.const_var a1 true
  let s2 ← fr.const_var a2 true
  if (s1.type = some "int" ∧ s2.type = some "int") ∨
      (s1.type = some "float" ∧ s2.type = some "float") then
    let v ← varAdd s1 s2
    fr.setvarP a0.value v
  else .err .BAD_OPERAND_TYPE

/-- `InstructionExecutor._SUB`. -/
def instSUB (fr : Frames) (a0 a1 a2 : Arg) : Res Frames := do
  let s1 ← fr.const_var a1 true
  let s2 ← fr.const_var a2 true
  if (s1.type = some "int" ∧ s2.type = some "int") ∨
      (s1.type = some "float" ∧ s2.type = some "float") then
    let v ← varSub s1 s2
    fr.setvarP a0.value v
  else .err .BAD_OPERAND_TYPE

/-- `InstructionExecutor._MUL`. -/
def instMUL (fr : Frames) (a0 a1 a2 : Arg) : Res Frames := do
  let s1 ← fr.const_var a1 true
  let s2 ← fr.const_var a2 true
  if (s1.type = some "int" ∧ s2.type = some "int") ∨
      (s1.type = some "float" ∧ s2.type = some "float") then
    let v ← varMul s1 s2
    fr.setvarP a0.value v
  else .err .BAD_OPERAND_TYPE

/-- `InstructionExecutor._IDIV`. -/
def instIDIV (fr : Frames) (a0 a1 a2 : Arg) : Res Frames := do
  let s1 ← fr.const_var a1 true
  let s2 ← fr.const_var a2 true
  if s1.type = some "int" ∧ s2.type = some "int" then
    let v ← varFloordiv s1 s2
    fr.setvarP a0.value v
  else .err .BAD_OPERAND_TYPE

/-- `InstructionExecutor._DIV`: both `float` divides; otherwise a string
operand exits with `STRING_ERR`, everything else with
`BAD_OPERAND_TYPE`. -/
def instDIV (fr : Frames) (a0 a1 a2 : Arg) : Res Frames := do
  let s1 ← fr.const_var a1 true
  let s2 ← fr.const_var a2 true
  if s1.type = some "float" ∧ s2.type = some "float" then
    let v ← varTruediv s1 s2
    fr.setvarP a0.value v
  else if s1.type = some "string" ∨ s2.type = some "string" then .err .STRING_ERR
  else .err .BAD_OPERAND_TYPE

/-- The binary opcodes that have a stack-suffixed variant. -/
inductive BinOp where
  | add | sub | mul | idiv | div | lt | gt | eq | band | bor | stri2int
deriving DecidableEq

/-- `STRI2INT` value computation shared by `_STRI2INT` and `_STRI2INTS`:
index bounds are checked against the string length, then `ord` of the
character at the index. -/
def stri2intVal (s1 s2 : Var) : Res Var :=
  match s1.value, s2.value with
  | some (.str s), some (.int n) =>
    if n < 0 ∨ (s.length : ℤ) ≤ n then .err .STRING_ERR
    else
      match s.data.get? n.toNat with
      | some c => .ok ⟨some "int", some (.int c.toNat)⟩
      | none => .crash
  | _, _ => .crash

/-- The value-and-error computation of each non-suffixed binary opcode
(`_ADD`, `_SUB`, ..., `_STRI2INT`), applied to the two already-evaluated
symb operands. -/
def binOpDirect : BinOp → Var → Var → Res Var
  | .add, s1, s2 =>
    if (s1.type = some "int" ∧ s2.type = some "int") ∨
        (s1.type = some "float" ∧ s2.type = some "float") then varAdd s1 s2
    else .err .BAD_OPERAND_TYPE
  | .sub, s1, s2 =>
    if (s1.type = some "int" ∧ s2.type = some "int") ∨
        (s1.type = some "float" ∧ s2.type = some "float") then varSub s1 s2
    else .err .BAD_OPERAND_TYPE
  | .mul, s1, s2 =>
    if (s1.type = some "int" ∧ s2.type = some "int") ∨
        (s1.type = some "float" ∧ s2.type = some "float") then varMul s1 s2
    else .err .BAD_OPERAND_TYPE
  | .idiv, s1, s2 =>
    if s1.type = some "int" ∧ s2.type = some "int" then varFloordiv s1 s2
    else .err .BAD_OPERAND_TYPE
  | .div, s1, s2 =>
    if s1.type = some "float" ∧ s2.type = some "float" then varTruediv s1 s2
    else if s1.type = some "string" ∨ s2.type = some "string" then .err .STRING_ERR
    else .err .BAD_OPERAND_TYPE
  | .lt, s1, s2 =>
    if s1.type = s2.type ∧ s1.type ≠ some "nil" then varLt s1 s2
    else .err .BAD_OPERAND_TYPE
  | .gt, s1, s2 =>
    if s1.type = s2.type ∧ s1.type ≠ some "nil" then varGt s1 s2
    else .err .BAD_OPERAND_TYPE
  | .eq, s1, s2 =>
    if s1.type = s2.type ∨ s1.type = some "nil" ∨ s2.type = some "nil" then varEq s1 s2
    else .err .BAD_OPERAND_TYPE
  | .band, s1, s2 =>
    if s1.type = some "bool" ∧ s2.type = some "bool" then varAnd s1 s2
    else .err .BAD_OPERAND_TYPE
  | .bor, s1, s2 =>
    if s1.type = some "bool" ∧ s2.type = some "bool" then varOr s1 s2
    else .err .BAD_OPERAND_TYPE
  | .stri2int, s1, s2 =>
    if s1.type ≠ some "string" ∨ s2.type ≠ some "int" then .err .BAD_OPERAND_TYPE
    else stri2intVal s1 s2

/-- The value-and-error computation of each stack-suffixed binary opcode
(`_ADDS`, `_SUBS`, ..., `_STRI2INTS`), applied to the two popped operands
(`symb1` the deeper one, `symb2` the top).  Only `_DIVS` differs from its
direct counterpart: it has no special case for string operands. -/
def binOpStack : BinOp → Var → Var → Res Var
  | .add, s1, s2 =>
    if (s1.type = some "int" ∧ s2.type = some "int") ∨
        (s1.type = some "float" ∧ s2.type = some "float") then varAdd s1 s2
    else .err .BAD_OPERAND_TYPE
  | .sub, s1, s2 =>
    if (s1.type = some "int" ∧ s2.type = some "int") ∨
        (s1.type = some "float" ∧ s2.type = some "float") then varSub s1 s2
    else .err .BAD_OPERAND_TYPE
  | .mul, s1, s2 =>
    if (s1.type = some "int" ∧ s2.type = some "int") ∨
        (s1.type = some "float" ∧ s2.type = some "float") then varMul s1 s2
    else .err .BAD_OPERAND_TYPE
  | .idiv, s1, s2 =>
    if s1.type = some "int" ∧ s2.type = some "int" then varFloordiv s1 s2
    else .err .BAD_OPERAND_TYPE
  | .div, s1, s2 =>
    if s1.type = some "float" ∧ s2.type = some "float" then varTruediv s1 s2
    else .err .BAD_OPERAND_TYPE
  | .lt, s1, s2 =>
    if s1.type = s2.type ∧ s1.type ≠ some "nil" then varLt s1 s2
    else .err .BAD_OPERAND_TYPE
  | .gt, s1, s2 =>
    if s1.type = s2.type ∧ s1.type ≠ some "nil" then varGt s1 s2
    else .err .BAD_OPERAND_TYPE
  | .eq, s1, s2 =>
    if s1.type = s2.type ∨ s1.type = some "nil" ∨ s2.type = some "nil" then varEq s1 s2
    else .err .BAD_OPERAND_TYPE
  | .band, s1, s2 =>
    if s1.type = some "bool" ∧ s2.type = some "bool" then varAnd s1 s2
    else .err .BAD_OPERAND_TYPE
  | .bor, s1, s2 =>
    if s1.type = some "bool" ∧ s2.type = some "bool" then varOr s1 s2
    else .err .BAD_OPERAND_TYPE
  | .stri2int, s1, s2 =>
    if s1.type ≠ some "string" ∨ s2.type ≠ some "int" then .err .BAD_OPERAND_TYPE
    else stri2intVal s1 s2

/-- The unary opcodes that have a stack-suffixed variant. -/
inductive UnOp where
  | bnot | int2char | int2float | float2int
deriving DecidableEq

/-- `INT2CHAR` value computation: Python `chr` accepts code points in
`[0, 0x110000)` and raises `ValueError` otherwise, which the source turns
into `STRING_ERR`. -/
def int2charVal (s : Var) : Res Var :=
  match s.value with
  | some (.int n) =>
    if 0 ≤ n ∧ n < 0x110000 then .ok ⟨some "string", some (.str (String.mk [Char.ofNat n.toNat]))⟩
    else .err .STRING_ERR
  | _ => .crash

/-- Truncation toward zero, Python `int(float)`. -/
def ratTrunc (q : ℚ) : ℤ := Int.tdiv q.num (q.den : ℤ)

/-- `FLOAT2INT` value computation. -/
def float2intVal (s : Var) : Res Var :=
  match s.value with
  | some (.flt q) => .ok ⟨some "int", some (.int (ratTrunc q))⟩
  | _ => .crash

/-- `INT2FLOAT` value computation. -/
def int2floatVal (s : Var) : Res Var :=
  match s.value with
  | some (.int n) => .ok ⟨some "float", some (.flt (n : ℚ))⟩
  | _ => .crash

/-- The value-and-error computation of each non-suffixed unary opcode
(`_NOT`, `_INT2CHAR`, `_INT2FLOAT`, `_FLOAT2INT`). -/
def unOpDirect : UnOp → Var → Res Var
  | .bnot, s => if s.type = some "bool" then varInvert s else .err .BAD_OPERAND_TYPE
  | .int2char, s => if s.type ≠ some "int" then .err .BAD_OPERAND_TYPE else int2charVal s
  | .int2float, s => if s.type ≠ some "int" then .err .BAD_OPERAND_TYPE else int2floatVal s
  | .float2int, s => if s.type ≠ some "float" then .err .BAD_OPERAND_TYPE else float2intVal s

/-- The value-and-error computation of each stack-suffixed unary opcode
(`_NOTS`, `_INT2CHARS`, `_INT2FLOATS`, `_FLOAT2INTS`). -/
def unOpStack : UnOp → Var → Res Var
  | .bnot, s => if s.type = some "bool" then varInvert s else .err .BAD_OPERAND_TYPE
  | .int2char, s => if s.type ≠ some "int" then .err .BAD_OPERAND_TYPE else int2charVal s
  | .int2float, s => if s.type ≠ some "int" then .err .BAD_OPERAND_TYPE else int2floatVal s
  | .float2int, s => if s.type ≠ some "float" then .err .BAD_OPERAND_TYPE else float2intVal s

/-- The tail of `_JUMPIFEQ` after the two operands are obtained: label
check first, then the type guard, then the `__eq__` comparison deciding
whether to jump. -/
def jumpIfEqTailDirect (labelExists : Bool) (s1 s2 : Var) : Res Bool :=
  if labelExists = false then .err .UNDEF_REDEF
  else if s1.type = s2.type ∨ s1.type = some "nil" ∨ s2.type = some "nil" then
    (varEq s1 s2).bind fun v => .ok (v.value = some (.str "true"))
  else .err .BAD_OPERAND_TYPE

/-- The tail of `_JUMPIFEQS` after the two stack operands are popped. -/
def jumpIfEqTailStack (labelExists : Bool) (s1 s2 : Var) : Res Bool :=
  if labelExists = false then .err .UNDEF_REDEF
  else if s1.type = s2.type ∨ s1.type = some "nil" ∨ s2.type = some "nil" then
    (varEq s1 s2).bind fun v => .ok (v.value = some (.str "true"))
  else .err .BAD_OPERAND_TYPE

/-- The tail of `_JUMPIFNEQ`. -/
def jumpIfNeqTailDirect (labelExists : Bool) (s1 s2 : Var) : Res Bool :=
  if labelExists = false then .err .UNDEF_REDEF
  else if s1.type = s2.type ∨ s1.type = some "nil" ∨ s2.type = some "nil" then
    (varNe s1 s2).bind fun v => .ok (v.value = some (.str "true"))
  else .err .BAD_OPERAND_TYPE

/-- The tail of `_JUMPIFNEQS`. -/
def jumpIfNeqTailStack (labelExists : Bool) (s1 s2 : Var) : Res Bool :=
  if labelExists = false then .err .UNDEF_REDEF
  else if s1.type = s2.type ∨ s1.type = some "nil" ∨ s2.type = some "nil" then
    (varNe s1 s2).bind fun v => .ok (v.value = some (.str "true"))
  else .err .BAD_OPERAND_TYPE

/-- The label key used by `label in self._labels`: a non-string payload is
simply not present in the string-keyed dict. -/
def labelKey : PyVal → Option String
  | .str s => some s
  | _ => none

/-- `InstructionExecutor._JUMPIFEQ` over the frames and the label map:
both symb operands are evaluated (with the initialization check) before
the label-existence check; the type guard comes after it.  The result is
the new `pc` when the jump is taken. -/
def instJUMPIFEQ (fr : Frames) (labels : List (String × ℕ)) (a0 a1 a2 : Arg) :
    Res (Option ℕ) := do
  let s1 ← fr.const_var a1 true
  let s2 ← fr.const_var a2 true
  if (match labelKey a0.value with
      | some name => (alook labels name).isSome
      | none => false) = false then .err .UNDEF_REDEF
  else if s1.type = s2.type ∨ s1.type = some "nil" ∨ s2.type = some "nil" then do
    let v ← varEq s1 s2
    if v.value = some (.str "true") then
      match labelKey a0.value with
      | some name =>
        match alook labels name with
        | some t => .ok (some t)
        | none => .err .UNDEF_REDEF
      | none => .err .UNDEF_REDEF
    else .ok none
  else .err .BAD_OPERAND_TYPE

/-- `InstructionExecutor._JUMPIFNEQ`, same structure with `__ne__`. -/
def instJUMPIFNEQ (fr : Frames) (labels : List (String × ℕ)) (a0 a1 a2 : Arg) :
    Res (Option ℕ) := do
  let s1 ← fr.const_var a1 true
  let s2 ← fr.const_var a2 true
  if (match labelKey a0.value with
      | some name => (alook labels name).isSome
      | none => false) = false then .err .UNDEF_REDEF
  else if s1.type = s2.type ∨ s1.type = some "nil" ∨ s2.type = some "nil" then do
    let v ← varNe s1 s2
    if v.value = some (.str "true") then
      match labelKey a0.value with
      | some name =>
        match alook labels name with
        | some t => .ok (some t)
        | none => .err .UNDEF_REDEF
      | none => .err .UNDEF_REDEF
    else .ok none
  else .err .BAD_OPERAND_TYPE

/-- `InstructionExecutor._TYPE`: resolve the symb operand without the
initialization check; an unset type yields the empty string, otherwise the
type name; store into the target variable. -/
def instTYPE (fr : Frames) (a0 a1 : Arg) : Res Frames := do
  let symb ← fr.const_var a1 false
  match symb.type with
  | none => fr.setvarP a0.value (strVar "")
  | some t => fr.setvarP a0.value (strVar t)

/-- Python `line.rstrip(chr 10)`: drop every trailing newline character. -/
def rstripNl (s : String) : String :=
  String.mk (s.data.reverse.dropWhile (fun c => c = Char.ofNat 10)).reverse

/-- Helper for `pyParseInt`: digits of a decimal numeral. -/
def digitsVal : List Char → Option ℕ
  | [] => some 0
  | c :: t =>
    if c.isDigit then
      (digitsVal t).map (fun v => (c.toNat - 48) * 10 ^ t.length + v)
    else none

/-- Python `int(s)` on the input line: optional surrounding whitespace, an
optional sign, then a nonempty run of digits; anything else raises
`ValueError` (`none`). -/
def pyParseInt (s : String) : Option ℤ :=
  let t := (pyStrip s).data
  match t with
  | [] => none
  | c :: rest =>
    if c = Char.ofNat 43 then
      match rest with
      | [] => none
      | _ => (digitsVal rest).map (fun v => (v : ℤ))
    else if c = Char.ofNat 45 then
      match rest with
      | [] => none
      | _ => (digitsVal rest).map (fun v => -(v : ℤ))
    else (digitsVal t).map (fun v => (v : ℤ))

/-- Value of a run of hexadecimal digits. -/
def hexDigitsVal : List Char → Option ℕ
  | [] => some 0
  | c :: t =>
    let d :=
      if c.isDigit then some (c.toNat - 48)
      else if 97 ≤ c.toNat ∧ c.toNat ≤ 102 then some (c.toNat - 87)
      else none
    match d with
    | none => none
    | some dv => (hexDigitsVal t).map (fun v => dv * 16 ^ t.length + v)

/-- Python `float.fromhex` on the input line, modelled exactly on rationals
(the IEEE-754 rounding step of the real `fromhex` is not modelled): an
optional sign, an optional `0x` prefix, a nonempty hexadecimal mantissa
with optional fraction, and an optional `p`-exponent in decimal. -/
def pyParseHexFloat (s : String) : Option ℚ :=
  let t := (pyLower (pyStrip s)).data
  let (sgn, t1) :=
    match t with
    | c :: rest =>
      if c = Char.ofNat 45 then ((-1 : ℚ), rest)
      else if c = Char.ofNat 43 then ((1 : ℚ), rest)
      else ((1 : ℚ), t)
    | [] => ((1 : ℚ), t)
  let t2 :=
    match t1 with
    | c0 :: cx :: rest => if c0 = Char.ofNat 48 ∧ cx = Char.ofNat 120 then rest else t1
    | _ => t1
  let intPart := t2.takeWhile (fun c => c.isDigit ∨ (97 ≤ c.toNat ∧ c.toNat ≤ 102))
  let t3 := t2.dropWhile (fun c => c.isDigit ∨ (97 ≤ c.toNat ∧ c.toNat ≤ 102))
  let (fracPart, t4) :=
    match t3 with
    | c :: rest =>
      if c = Char.ofNat 46 then
        (rest.takeWhile (fun d : Char => d.isDigit ∨ (97 ≤ d.toNat ∧ d.toNat ≤ 102)),
         rest.dropWhile (fun d : Char => d.isDigit ∨ (97 ≤ d.toNat ∧ d.toNat ≤ 102)))
      else ([], t3)
    | [] => ([], t3)
  if intPart.length + fracPart.length = 0 then none
  else
    let mant :=
      match hexDigitsVal intPart, hexDigitsVal fracPart with
      | some i, some f => some ((i : ℚ) + (f : ℚ) / (16 : ℚ) ^ fracPart.length)
      | _, _ => none
    match mant with
    | none => none
    | some m =>
      match t4 with
      | [] => some (sgn * m)
      | c :: rest =>
        if c = Char.ofNat 112 then
          match pyParseInt (String.mk rest) with
          | some e => some (sgn * m * (2 : ℚ) ^ e)
          | none => none
        else none

/-- `InstructionExecutor._READ`, reduced to the computation of the value
that is stored: `line` is the outcome of the read (`none` when the read
itself raised, e.g. `input()` at EOF on stdin; `some l` the raw line,
which is then stripped of trailing newlines).  When the read raised, the
source sets the result to nil but leaves `input_val` unbound; the `bool`
and `string` branches then use `input_val` outside any `try` and die with
an uncaught `NameError` (crash), while the `int` and `float` branches
catch it and fall back to nil. -/
def readValue (typeVal : String) (line : Option String) : Res Var :=
  if typeVal = "int" ∨ typeVal = "string" ∨ typeVal = "bool" ∨ typeVal = "float" then
    match line with
    | some l =>
      let input_val := rstripNl l
      if typeVal = "bool" then .ok (boolVar (pyUpper input_val = "TRUE"))
      else if typeVal = "int" then
        match pyParseInt input_val with
        | some n => .ok (intVar n)
        | none => .ok nilVar
      else if typeVal = "float" then
        match pyParseHexFloat input_val with
        | some q => .ok (fltVar q)
        | none => .ok nilVar
      else .ok ⟨some "string", some (.str input_val)⟩
    | none =>
      if typeVal = "bool" then .crash
      else if typeVal = "int" ∨ typeVal = "float" then .ok nilVar
      else .crash
  else .err .BAD_OPERAND_VAL

/-- The root-element validation of `XMLParser.parse`: the tag must be
`program`; the attribute checks — unknown attribute name, missing
`language`, wrong `language` value — are all performed inside the loop
over the root's attributes, exactly as in the source. -/
def rootCheckLoop (attrib : List (String × String)) : List String → Res Unit
  | [] => .ok ()
  | a :: rest =>
    if a = "language" ∨ a = "name" ∨ a = "description" then
      match alook attrib "language" with
      | none => .err .BAD_STRUCT
      | some v =>
        if pyUpper v = "IPPCODE21" then rootCheckLoop attrib rest
        else .err .BAD_STRUCT
    else .err .BAD_STRUCT

/-- Root check entry point: tag check, then the attribute loop. -/
def rootCheck (tag : String) (attrib : List (String × String)) : Res Unit :=
  if tag = "program" then rootCheckLoop attrib (attrib.map (fun p => p.1))
  else .err .BAD_STRUCT

/-- One step of maintaining `exec_per_inst`: increment an existing entry in
place, append a fresh one. -/
def bumpCount (l : List (String × ℕ)) (op : String) : List (String × ℕ) :=
  match alook l op with
  | some c => aset l op (c + 1)
  | none => l ++ [(op, 1)]

/-- `exec_per_inst` after executing the given opcode sequence. -/
def buildCounts (ex : List String) : List (String × ℕ) :=
  ex.foldl bumpCount []

/-- Removal of `LABEL`, `BREAK` and `DPRINT` from `exec_per_inst`. -/
def delStats (l : List (String × ℕ)) : List (String × ℕ) :=
  l.filter (fun p => ¬(p.1 = "LABEL" ∨ p.1 = "BREAK" ∨ p.1 = "DPRINT"))

/-- Stable insertion (ascending by count) used to model Python's stable
`sorted(..., key=lambda item: item[1])`. -/
def insAsc (a : String × ℕ) : List (String × ℕ) → List (String × ℕ)
  | [] => [a]
  | b :: t => if a.2 ≤ b.2 then a :: b :: t else b :: insAsc a t

/-- Stable ascending sort by count. -/
def sortAsc : List (String × ℕ) → List (String × ℕ)
  | [] => []
  | a :: t => insAsc a (sortAsc t)

/-- `list(dict(reversed(sorted(...))).keys())[0]`: the first key after
sorting ascending by count (stably) and reversing. -/
def mostExec (l : List (String × ℕ)) : Option String :=
  ((sortAsc l).reverse.head?).map (fun p => p.1)

/-- `write_stats`'s scan of `.//instruction[@opcode=...]`: the minimum
`order` attribute among the program's occurrences of the opcode (the
program is the document-order list of `(order, opcode)` pairs); no
occurrence at all would be an `IndexError` on `insts[0]`. -/
def minOrderFor (prog : List (ℕ × String)) (op : String) : Res ℕ :=
  match (prog.filter (fun p => p.2 = op)).map (fun p => p.1) with
  | [] => .crash
  | o :: os => .ok (os.foldl min o)

/-- The `--hot` statistic as the source computes it: build the per-opcode
execution counts, delete `LABEL`/`BREAK`/`DPRINT`, pick the first key of
the reversed stable sort, and take the minimum source order among that
opcode's occurrences.  With no counted executions, `min_order` is unbound
when `--hot` is written (a `NameError`). -/
def hotStat (ex : List String) (prog : List (ℕ × String)) : Res ℕ :=
  let counts := delStats (buildCounts ex)
  match mostExec counts with
  | some op => minOrderFor prog op
  | none => .crash

/-- Modelled from the claim's words, for comparison with `hotStat`: among
the opcodes tied for the maximum execution count, the `--hot` value is the
minimum source `order` over all of the tied opcodes' occurrences. -/
def specHot (ex : List String) (prog : List (ℕ × String)) : Option ℕ :=
  let counts := delStats (buildCounts ex)
  match (counts.map (fun p => p.2)).max? with
  | none => none
  | some mx =>
    let tied := (counts.filter (fun p => p.2 = mx)).map (fun p => p.1)
    ((prog.filter (fun p => tied.contains p.2)).map (fun p => p.1)).min?

/-- Direct characterization of the tie-breaking that the reversed stable
sort performs: the entry with the maximal count that occurs latest in the
list (i.e. the tied opcode whose first execution happened last). -/
def lastMaxEntry : List (String × ℕ) → Option (String × ℕ)
  | [] => none
  | a :: t =>
    match lastMaxEntry t with
    | none => some a
    | some m => if a.2 ≤ m.2 then some m else some a

/-- The universe of initialized runtime values, used to quantify theorems
over well-formed operands (the invariant the loader and executor maintain:
an `int`-tagged `Var` holds an integer payload, booleans hold
`true`/`false`, nil holds `nil`). -/
inductive IValue where
  | vint (n : ℤ)
  | vflt (q : ℚ)
  | vstr (s : String)
  | vbool (b : Bool)
  | vnil
deriving DecidableEq

/-- The type tag carried by each kind of value. -/
def IValue.tname : IValue → String
  | .vint _ => "int"
  | .vflt _ => "float"
  | .vstr _ => "string"
  | .vbool _ => "bool"
  | .vnil => "nil"

/-- The `Var` representing a value. -/
def toVar : IValue → Var
  | .vint n => intVar n
  | .vflt q => fltVar q
  | .vstr s => strVar s
  | .vbool b => boolVar b
  | .vnil => nilVar

/-- The literal operand carrying a value. -/
def ivalArg : IValue → Arg
  | .vint n => intArg n
  | .vflt q => fltArg q
  | .vstr s => strArg s
  | .vbool b => boolArg b
  | .vnil => nilArg

/-- Value equality within one type: the comparison `EQ` performs on
operands of equal type. -/
def ivalBeq : IValue → IValue → Bool
  | .vint n, .vint m => decide (n = m)
  | .vflt q, .vflt r => decide (q = r)
  | .vstr s, .vstr t => decide (s = t)
  | .vbool a, .vbool b => decide (a = b)
  | .vnil, .vnil => true
  | _, _ => false

/-- Adjacent-pairs ordering invariant for count lists. -/
def sortedC : List (String × ℕ) → Prop
  | [] => True
  | [_] => True
  | a :: b :: t => a.2 ≤ b.2 ∧ sortedC (b :: t)

/-! ## Helper lemmas -/

/-- `ivalBeq` is exactly propositional equality of values. -/
theorem ivalBeq_eq_true_iff (x y : IValue) : ivalBeq x y = true ↔ x = y := by
  cases x <;> cases y <;> simp [ivalBeq]

/-- After a dict assignment, looking up the assigned key returns the new
value. -/
theorem alook_aset {α : Type} (l : List (String × α)) (n : String) (v : α) :
    alook (aset l n v) n = some v := by
  induction l with
  | nil => simp [aset, alook]
  | cons p t ih =>
    by_cases h : p.1 = n
    · simp [aset, alook, h]
    · simp [aset, alook, h, ih]

/-- The `Var` of every value carries its type name as the tag. -/
theorem toVar_type (x : IValue) : (toVar x).type = some x.tname := by
  cases x <;> rfl

/-- Evaluating a literal operand yields the corresponding `Var`. -/
theorem const_var_ivalArg (fr : Frames) (x : IValue) (ci : Bool) :
    fr.const_var (ivalArg x) ci = .ok (toVar x) := by
  cases x <;> rfl

/-- A sorted list stays sorted after dropping its head. -/
theorem sortedC_tail {b : String × ℕ} {t : List (String × ℕ)} (h : sortedC (b :: t)) :
    sortedC t := by
  cases t with
  | nil => trivial
  | cons c r => exact h.2

/-- In a sorted nonempty list the head's count bounds the last count. -/
theorem sortedC_head_le_getLast? :
    ∀ (t : List (String × ℕ)) (b m : String × ℕ),
      sortedC (b :: t) → (b :: t).getLast? = some m → b.2 ≤ m.2 := by
  intro t
  induction t with
  | nil =>
    intro b m _ hm
    simp only [List.getLast?_singleton, Option.some.injEq] at hm
    exact hm ▸ le_refl _
  | cons c r ih =>
    intro b m h hm
    rw [List.getLast?_cons_cons] at hm
    exact le_trans h.1 (ih c m h.2 hm)

/-- Inserting never produces the empty list. -/
theorem insAsc_ne_nil (a : String × ℕ) (l : List (String × ℕ)) : insAsc a l ≠ [] := by
  cases l with
  | nil => simp [insAsc]
  | cons b t =>
    simp only [insAsc]
    split <;> simp

/-- The last element after a stable ascending insertion: the old last entry
unless the inserted count strictly exceeds it. -/
theorem getLast?_insAsc :
    ∀ (l : List (String × ℕ)) (a : String × ℕ), sortedC l →
      (insAsc a l).getLast? =
        (match l.getLast? with
         | none => some a
         | some m => if a.2 ≤ m.2 then some m else some a) := by
  intro l
  induction l with
  | nil => intro a _; rfl
  | cons b t ih =>
    intro a h
    by_cases hab : a.2 ≤ b.2
    · rw [show insAsc a (b :: t) = a :: b :: t from by simp [insAsc, hab]]
      rw [List.getLast?_cons_cons]
      cases hm : (b :: t).getLast? with
      | none => simp [List.getLast?_eq_none_iff] at hm
      | some m =>
        have hbm := sortedC_head_le_getLast? t b m h hm
        simp [le_trans hab hbm]
    · rw [show insAsc a (b :: t) = b :: insAsc a t from by simp [insAsc, hab]]
      have h1 : (b :: insAsc a t).getLast? = (insAsc a t).getLast? := by
        cases hi : insAsc a t with
        | nil => exact absurd hi (insAsc_ne_nil a t)
        | cons c r => rw [List.getLast?_cons_cons]
      rw [h1, ih a (sortedC_tail h)]
      cases t with
      | nil => simp [hab]
      | cons c r => rw [List.getLast?_cons_cons]

/-- Stable ascending insertion preserves sortedness. -/
theorem sortedC_insAsc :
    ∀ (l : List (String × ℕ)) (a : String × ℕ), sortedC l → sortedC (insAsc a l) := by
  intro l
  induction l with
  | nil => intro a _; trivial
  | cons b t ih =>
    intro a h
    by_cases hab : a.2 ≤ b.2
    · rw [show insAsc a (b :: t) = a :: b :: t from by simp [insAsc, hab]]
      exact ⟨hab, h⟩
    · rw [show insAsc a (b :: t) = b :: insAsc a t from by simp [insAsc, hab]]
      cases t with
      | nil =>
        simp only [insAsc]
        exact ⟨le_of_not_le hab, trivial⟩
      | cons c r =>
        by_cases hac : a.2 ≤ c.2
        · rw [show insAsc a (c :: r) = a :: c :: r from by simp [insAsc, hac]]
          exact ⟨le_of_not_le hab, hac, sortedC_tail h⟩
        · rw [show insAsc a (c :: r) = c :: insAsc a r from by simp [insAsc, hac]]
          have hs := ih a (sortedC_tail h)
          rw [show insAsc a (c :: r) = c :: insAsc a r from by simp [insAsc, hac]] at hs
          exact ⟨h.1, hs⟩

/-- The model of Python's stable sort really sorts. -/
theorem sortedC_sortAsc : ∀ (l : List (String × ℕ)), sortedC (sortAsc l) := by
  intro l
  induction l with
  | nil => trivial
  | cons a t ih => exact sortedC_insAsc (sortAsc t) a ih

/-- Last element of the stable ascending sort: the maximal-count entry that
occurs latest in the original list. -/
theorem getLast?_sortAsc : ∀ (l : List (String × ℕ)), (sortAsc l).getLast? = lastMaxEntry l := by
  intro l
  induction l with
  | nil => rfl
  | cons a t ih =>
    show (insAsc a (sortAsc t)).getLast? = _
    rw [getLast?_insAsc (sortAsc t) a (sortedC_sortAsc t), ih]
    rfl

/-! ## C2: READ on a failed line read -/

/-- C2: the claim says a failed line read (EOF on stdin) always yields nil
and that input failures never terminate the program.  In the code the
`except` block leaves `input_val` unbound, so `READ` with type `bool` or
`string` dies with an uncaught `NameError` (modelled by `crash`); only the
`int` and `float` branches reach nil, because their own `try` swallows the
`NameError`.  On successfully read lines the claim's description holds:
`bool` compares the upper-cased line with `TRUE`, and unparsable `int`
input yields nil. -/
theorem C2_read_eof_crash :
    readValue "bool" none = Res.crash ∧
    readValue "string" none = Res.crash ∧
    readValue "int" none = Res.ok nilVar ∧
    readValue "float" none = Res.ok nilVar ∧
    readValue "bool" (some "tRuE") = Res.ok (boolVar true) ∧
    readValue "bool" (some "no") = Res.ok (boolVar false) ∧
    readValue "int" (some "abc") = Res.ok nilVar := by
  refine ⟨rfl, rfl, rfl, rfl, ?_, ?_, ?_⟩ <;> decide

/-! ## C3: root element `language` attribute -/

/-- C3: the claim says a root element without a `language` attribute is
always rejected with `BAD_STRUCT` (32), in particular a root with no
attributes at all.  The attribute checks live inside the loop over the
root's attributes, so a bare `<program>` with zero attributes is accepted
(`ok`), refuting the claim exactly at that input; with at least one
attribute the required checks do run. -/
theorem C3_root_language_check :
    rootCheck "program" [] = Res.ok () ∧
    rootCheck "program" [("name", "test")] = Res.err Code.BAD_STRUCT ∧
    rootCheck "program" [("language", "ippCODE21")] = Res.ok () ∧
    rootCheck "program" [("language", "IPPcode20")] = Res.err Code.BAD_STRUCT ∧
    rootCheck "main" [("language", "IPPcode21")] = Res.err Code.BAD_STRUCT := by
  refine ⟨rfl, ?_, ?_, ?_, ?_⟩ <;> decide

/-! ## C1: ADD/SUB/MUL operand typing -/

/-- C1 counterexample: the claim says `ADD` on two string operands
succeeds and stores the concatenation; with a defined target variable,
`ADD GF@r string:a string:b` instead exits with `BAD_OPERAND_TYPE` (53)
because `_ADD` only admits `int`,`int` and `float`,`float`. -/
theorem C1_add_string_counterexample :
    instADD ⟨[], [("r", uninitVar)], [], false, 0⟩ (varArg "GF@r") (strArg "a") (strArg "b") =
      Res.err Code.BAD_OPERAND_TYPE := by
  decide

/-- C1 amended: `ADD`, exactly like `SUB` and `MUL`, accepts only
`int`,`int` and `float`,`float` — every other combination of literal
operand values (string,string included) exits with `BAD_OPERAND_TYPE`
(53) — and on the accepted combinations it stores the sum (respectively
difference, product) into the target variable. -/
theorem C1_add_sub_mul_arith_only :
    ∀ (fr : Frames) (tid : String) (x y : IValue) (n m : ℤ) (q r : ℚ),
      (¬((x.tname = "int" ∧ y.tname = "int") ∨ (x.tname = "float" ∧ y.tname = "float")) →
        instADD fr (varArg tid) (ivalArg x) (ivalArg y) = Res.err Code.BAD_OPERAND_TYPE ∧
        instSUB fr (varArg tid) (ivalArg x) (ivalArg y) = Res.err Code.BAD_OPERAND_TYPE ∧
        instMUL fr (varArg tid) (ivalArg x) (ivalArg y) = Res.err Code.BAD_OPERAND_TYPE) ∧
      instADD fr (varArg tid) (intArg n) (intArg m) = fr.setvarP (.str tid) (intVar (n + m)) ∧
      instADD fr (varArg tid) (fltArg q) (fltArg r) = fr.setvarP (.str tid) (fltVar (q + r)) ∧
      instSUB fr (varArg tid) (intArg n) (intArg m) = fr.setvarP (.str tid) (intVar (n - m)) ∧
      instSUB fr (varArg tid) (fltArg q) (fltArg r) = fr.setvarP (.str tid) (fltVar (q - r)) ∧
      instMUL fr (varArg tid) (intArg n) (intArg m) = fr.setvarP (.str tid) (intVar (n * m)) ∧
      instMUL fr (varArg tid) (fltArg q) (fltArg r) = fr.setvarP (.str tid) (fltVar (q * r)) := by
  intro fr tid x y n m q r
  refine ⟨?_, rfl, rfl, rfl, rfl, rfl, rfl⟩
  intro h
  cases x <;> cases y <;>
    first
      | exact ⟨rfl, rfl, rfl⟩
      | simp [IValue.tname] at h

/-- Witness for C1: concrete instances of both the error and the store. -/
theorem C1_add_sub_mul_arith_only_witness :
    instADD ⟨[], [("r", uninitVar)], [], false, 0⟩ (varArg "GF@r")
        (ivalArg (.vstr "a")) (ivalArg (.vstr "b")) = Res.err Code.BAD_OPERAND_TYPE ∧
    instADD ⟨[], [("r", uninitVar)], [], false, 0⟩ (varArg "GF@r") (intArg 2) (intArg 3) =
      Frames.setvarP ⟨[], [("r", uninitVar)], [], false, 0⟩ (.str "GF@r") (intVar (2 + 3)) :=
  ⟨((C1_add_sub_mul_arith_only ⟨[], [("r", uninitVar)], [], false, 0⟩ "GF@r"
      (.vstr "a") (.vstr "b") 2 3 0 0).1 (by decide)).1,
   (C1_add_sub_mul_arith_only ⟨[], [("r", uninitVar)], [], false, 0⟩ "GF@r"
      (.vstr "a") (.vstr "b") 2 3 0 0).2.1⟩

/-! ## C4: the `--hot` statistic -/

/-- C4 counterexample: two opcodes each executed once; the claim says the
selected opcode is determined by the minimum source order among the tied
opcodes (which would give `--hot` = 1), but the code's reversed stable
sort selects `MOVE`, whose minimum order is 2. -/
theorem C4_hot_tie_counterexample :
    hotStat ["DEFVAR", "MOVE"] [(1, "DEFVAR"), (2, "MOVE")] = Res.ok 2 ∧
    specHot ["DEFVAR", "MOVE"] [(1, "DEFVAR"), (2, "MOVE")] = some 1 := by
  exact ⟨by decide, by decide⟩

/-- C4 amended: `--hot` is the minimum source order among the occurrences
of the selected opcode, where the selected opcode is the entry of maximal
execution count whose first execution occurred latest (the head of the
reversed stable ascending sort), not the tied opcode of minimum source
order. -/
theorem C4_hot_characterization :
    ∀ (ex : List String) (prog : List (ℕ × String)),
      hotStat ex prog =
        (match lastMaxEntry (delStats (buildCounts ex)) with
         | some p => minOrderFor prog p.1
         | none => Res.crash) := by
  intro ex prog
  unfold hotStat mostExec
  simp only [List.head?_reverse, getLast?_sortAsc]
  cases lastMaxEntry (delStats (buildCounts ex)) <;> rfl

/-! ## C5: DIV classification -/

/-- C5 counterexample: the claim says a string operand to `DIV` fails with
`BAD_OPERAND_TYPE` (53); the code exits with `STRING_ERR` (58) instead. -/
theorem C5_div_string_counterexample :
    instDIV ⟨[], [("r", uninitVar)], [], false, 0⟩ (varArg "GF@r") (strArg "a") (fltArg 1) =
      Res.err Code.STRING_ERR := by
  decide

/-- C5 amended: `DIV` on two floats with nonzero divisor stores the
quotient; a zero float divisor exits with `BAD_OPERAND_VAL` (57); a string
operand on either side exits with `STRING_ERR` (58); every other
mismatched or non-float combination exits with `BAD_OPERAND_TYPE` (53). -/
theorem C5_div_classification :
    ∀ (fr : Frames) (tid : String) (q1 q2 : ℚ) (s : String) (x y : IValue),
      (q2 ≠ 0 → instDIV fr (varArg tid) (fltArg q1) (fltArg q2) =
        fr.setvarP (.str tid) (fltVar (q1 / q2))) ∧
      instDIV fr (varArg tid) (fltArg q1) (fltArg 0) = Res.err Code.BAD_OPERAND_VAL ∧
      instDIV fr (varArg tid) (strArg s) (ivalArg y) = Res.err Code.STRING_ERR ∧
      instDIV fr (varArg tid) (ivalArg y) (strArg s) = Res.err Code.STRING_ERR ∧
      (x.tname ≠ "string" → y.tname ≠ "string" →
        ¬(x.tname = "float" ∧ y.tname = "float") →
        instDIV fr (varArg tid) (ivalArg x) (ivalArg y) = Res.err Code.BAD_OPERAND_TYPE) := by
  intro fr tid q1 q2 s x y
  refine ⟨?_, ?_, ?_, ?_, ?_⟩
  · intro h
    simp [instDIV, Frames.const_var, varArg, fltArg, varTruediv, pyEqOpt, pyEqv, pyOpOpt,
      pyTruedivv, fltVar, h, Bind.bind, Res.bind]
  · rfl
  · cases y <;> rfl
  · cases y <;> rfl
  · intro h1 h2 h3
    cases x <;> cases y <;>
      first
        | rfl
        | exact absurd rfl h1
        | exact absurd rfl h2
        | exact absurd ⟨rfl, rfl⟩ h3

/-- Witness for C5: concrete instances of the quotient and the type
error. -/
theorem C5_div_classification_witness :
    instDIV ⟨[], [("r", uninitVar)], [], false, 0⟩ (varArg "GF@r") (fltArg 1) (fltArg 2) =
      Frames.setvarP ⟨[], [("r", uninitVar)], [], false, 0⟩ (.str "GF@r") (fltVar (1 / 2)) ∧
    instDIV ⟨[], [("r", uninitVar)], [], false, 0⟩ (varArg "GF@r")
        (ivalArg (.vint 1)) (ivalArg (.vint 2)) = Res.err Code.BAD_OPERAND_TYPE :=
  ⟨(C5_div_classification ⟨[], [("r", uninitVar)], [], false, 0⟩ "GF@r" 1 2 "s"
      (.vint 1) (.vint 2)).1 (by norm_num),
   (C5_div_classification ⟨[], [("r", uninitVar)], [], false, 0⟩ "GF@r" 1 2 "s"
      (.vint 1) (.vint 2)).2.2.2.2 (by decide) (by decide) (by decide)⟩

/-! ## C6: stack-suffixed variants -/

/-- C6 counterexample: the claim says every stack variant classifies
errors identically to its direct form; with a string operand `_DIV` exits
with `STRING_ERR` (58) while `_DIVS` exits with `BAD_OPERAND_TYPE` (53). -/
theorem C6_div_divs_counterexample :
    binOpDirect BinOp.div (strVar "a") (fltVar 1) = Res.err Code.STRING_ERR ∧
    binOpStack BinOp.div (strVar "a") (fltVar 1) = Res.err Code.BAD_OPERAND_TYPE := by
  exact ⟨rfl, rfl⟩

/-- C6 amended: for every modelled operation with a stack-suffixed variant
except `DIV` — the binary ops `ADD SUB MUL IDIV LT GT EQ AND OR STRI2INT`,
the unary ops `NOT INT2CHAR INT2FLOAT FLOAT2INT`, and the tails of
`JUMPIFEQ`/`JUMPIFNEQ` — the stack variant computes the same value and the
same error classification on the same operand values; `DIV` and `DIVS`
agree exactly when neither operand is a string, and on a string operand
`DIV` gives `STRING_ERR` where `DIVS` gives `BAD_OPERAND_TYPE`. -/
theorem C6_stack_variant_equivalence :
    ∀ (k : BinOp) (u : UnOp) (x y : Var) (b : Bool),
      (k ≠ BinOp.div → binOpDirect k x y = binOpStack k x y) ∧
      (x.type ≠ some "string" → y.type ≠ some "string" →
        binOpDirect BinOp.div x y = binOpStack BinOp.div x y) ∧
      unOpDirect u x = unOpStack u x ∧
      jumpIfEqTailDirect b x y = jumpIfEqTailStack b x y ∧
      jumpIfNeqTailDirect b x y = jumpIfNeqTailStack b x y ∧
      ((x.type = some "string" ∨ y.type = some "string") →
        binOpDirect BinOp.div x y = Res.err Code.STRING_ERR ∧
        binOpStack BinOp.div x y = Res.err Code.BAD_OPERAND_TYPE) := by
  intro k u x y b
  refine ⟨?_, ?_, ?_, rfl, rfl, ?_⟩
  · intro hk
    cases k <;> first | rfl | exact absurd rfl hk
  · intro hx hy
    simp only [binOpDirect, binOpStack]
    by_cases hf : x.type = some "float" ∧ y.type = some "float"
    · simp [hf]
    · simp [hf, hx, hy]
  · cases u <;> rfl
  · intro hor
    constructor
    · simp only [binOpDirect]
      have hnf : ¬(x.type = some "float" ∧ y.type = some "float") := by
        rcases hor with hx | hy
        · intro hf; rw [hx] at hf; exact absurd hf.1 (by simp)
        · intro hf; rw [hy] at hf; exact absurd hf.2 (by simp)
      simp [hnf, hor]
    · simp only [binOpStack]
      have hnf : ¬(x.type = some "float" ∧ y.type = some "float") := by
        rcases hor with hx | hy
        · intro hf; rw [hx] at hf; exact absurd hf.1 (by simp)
        · intro hf; rw [hy] at hf; exact absurd hf.2 (by simp)
      simp [hnf]

/-- Witness for C6: concrete agreements of direct and stack variants. -/
theorem C6_stack_variant_equivalence_witness :
    binOpDirect BinOp.add (intVar 1) (intVar 2) = binOpStack BinOp.add (intVar 1) (intVar 2) ∧
    binOpDirect BinOp.div (fltVar 1) (fltVar 2) = binOpStack BinOp.div (fltVar 1) (fltVar 2) ∧
    binOpDirect BinOp.div (strVar "a") (fltVar 1) = Res.err Code.STRING_ERR :=
  ⟨(C6_stack_variant_equivalence BinOp.add UnOp.bnot (intVar 1) (intVar 2) true).1
      (by decide),
   (C6_stack_variant_equivalence BinOp.add UnOp.bnot (fltVar 1) (fltVar 2) true).2.1
      (by decide) (by decide),
   ((C6_stack_variant_equivalence BinOp.add UnOp.bnot (strVar "a") (fltVar 1) true).2.2.2.2.2
      (by decide)).1⟩

/-! ## C7: CALL and RETURN -/

/-- C7: fetching a `CALL` at index `pc` advances the counter to `pc + 1`;
`call` pushes that value (the index after the `CALL`) on the call stack
and sets the counter to the label's registered target; a `RETURN` from
that state pops the saved value so execution resumes right after the
`CALL`; `RETURN` on an empty call stack exits with `MISSING_VAL` (56); and
`add` registers a `LABEL` at the index immediately after the `LABEL`
itself. -/
theorem C7_call_return :
    ∀ (s s1 : Insts) (i : Instr) (lbl : String) (t : ℕ),
      (Insts.next s = some (i, s1) → argFirstStr i = some lbl →
        alook s.labels lbl = some t →
        s1.pc = s.pc + 1 ∧
        Insts.call s1 lbl = Res.ok { s1 with pc := t, calls := (s.pc + 1) :: s.calls } ∧
        Insts.ret { s1 with pc := t, calls := (s.pc + 1) :: s.calls } =
          Res.ok { s1 with pc := s.pc + 1, calls := s.calls }) ∧
      (s.calls = [] → Insts.ret s = Res.err Code.MISSING_VAL) ∧
      (∀ (j : Instr) (name : String), j.opcode = "LABEL" → argFirstStr j = some name →
        alook s.labels name = none →
        Insts.addInst s j =
          Res.ok { s with instructions := s.instructions ++ [j],
                          labels := aset s.labels name (s.instructions.length + 1) } ∧
        alook (aset s.labels name (s.instructions.length + 1)) name =
          some (s.instructions.length + 1)) := by
  intro s s1 i lbl t
  refine ⟨?_, ?_, ?_⟩
  · intro hn ha hl
    unfold Insts.next at hn
    split at hn
    · rw [Option.some.injEq, Prod.mk.injEq] at hn
      obtain ⟨hi, hs1⟩ := hn
      subst hs1
      refine ⟨rfl, ?_, rfl⟩
      unfold Insts.call Insts.jump
      simp [hl]
    · exact absurd hn (by simp)
  · intro hc
    unfold Insts.ret
    rw [hc]
  · intro j name hop han hnone
    constructor
    · simp [Insts.addInst, hop, han, hnone, List.length_append]
    · exact alook_aset s.labels name (s.instructions.length + 1)

/-- Witness for C7 on a four-instruction program: the call at index 0
pushes 1 and jumps to index 3 (just past the `LABEL` at index 2), and the
matching return restores 1. -/
theorem C7_call_return_witness :
    Insts.call ⟨[⟨"CALL", [⟨"label", .str "f"⟩]⟩, ⟨"BREAK", []⟩,
        ⟨"LABEL", [⟨"label", .str "f"⟩]⟩, ⟨"RETURN", []⟩], 1, [], [("f", 3)]⟩ "f" =
      Res.ok ⟨[⟨"CALL", [⟨"label", .str "f"⟩]⟩, ⟨"BREAK", []⟩,
        ⟨"LABEL", [⟨"label", .str "f"⟩]⟩, ⟨"RETURN", []⟩], 3, [1], [("f", 3)]⟩ ∧
    Insts.ret ⟨[⟨"CALL", [⟨"label", .str "f"⟩]⟩, ⟨"BREAK", []⟩,
        ⟨"LABEL", [⟨"label", .str "f"⟩]⟩, ⟨"RETURN", []⟩], 3, [1], [("f", 3)]⟩ =
      Res.ok ⟨[⟨"CALL", [⟨"label", .str "f"⟩]⟩, ⟨"BREAK", []⟩,
        ⟨"LABEL", [⟨"label", .str "f"⟩]⟩, ⟨"RETURN", []⟩], 1, [], [("f", 3)]⟩ :=
  ⟨((C7_call_return
      ⟨[⟨"CALL", [⟨"label", .str "f"⟩]⟩, ⟨"BREAK", []⟩,
        ⟨"LABEL", [⟨"label", .str "f"⟩]⟩, ⟨"RETURN", []⟩], 0, [], [("f", 3)]⟩
      ⟨[⟨"CALL", [⟨"label", .str "f"⟩]⟩, ⟨"BREAK", []⟩,
        ⟨"LABEL", [⟨"label", .str "f"⟩]⟩, ⟨"RETURN", []⟩], 1, [], [("f", 3)]⟩
      ⟨"CALL", [⟨"label", .str "f"⟩]⟩ "f" 3).1 rfl rfl rfl).2.1,
   ((C7_call_return
      ⟨[⟨"CALL", [⟨"label", .str "f"⟩]⟩, ⟨"BREAK", []⟩,
        ⟨"LABEL", [⟨"label", .str "f"⟩]⟩, ⟨"RETURN", []⟩], 0, [], [("f", 3)]⟩
      ⟨[⟨"CALL", [⟨"label", .str "f"⟩]⟩, ⟨"BREAK", []⟩,
        ⟨"LABEL", [⟨"label", .str "f"⟩]⟩, ⟨"RETURN", []⟩], 1, [], [("f", 3)]⟩
      ⟨"CALL", [⟨"label", .str "f"⟩]⟩ "f" 3).1 rfl rfl rfl).2.2⟩

/-! ## C8: EQ and nil -/

/-- C8: `EQ` with a nil operand always succeeds and yields true exactly
when both operands are nil; operands of one same type compare by value;
any other type mismatch exits with `BAD_OPERAND_TYPE` (53). -/
theorem C8_eq_semantics :
    ∀ (x y : IValue),
      binOpDirect BinOp.eq (toVar x) (toVar IValue.vnil) =
        Res.ok (boolVar (ivalBeq x IValue.vnil)) ∧
      binOpDirect BinOp.eq (toVar IValue.vnil) (toVar y) =
        Res.ok (boolVar (ivalBeq IValue.vnil y)) ∧
      (x.tname = y.tname →
        binOpDirect BinOp.eq (toVar x) (toVar y) = Res.ok (boolVar (ivalBeq x y))) ∧
      (x.tname ≠ y.tname → x ≠ IValue.vnil → y ≠ IValue.vnil →
        binOpDirect BinOp.eq (toVar x) (toVar y) = Res.err Code.BAD_OPERAND_TYPE) := by
  intro x y
  refine ⟨?_, ?_, ?_, ?_⟩
  · cases x <;> rfl
  · cases y <;> rfl
  · intro h
    cases x <;> cases y <;>
      first
        | rfl
        | (rename_i a b; cases a <;> cases b <;> rfl)
        | simp [IValue.tname] at h
  · intro h hx hy
    cases x <;> cases y <;>
      first
        | rfl
        | exact absurd rfl hx
        | exact absurd rfl hy
        | exact absurd rfl h

/-- Witness for C8: concrete nil comparison, value comparison and type
mismatch. -/
theorem C8_eq_semantics_witness :
    binOpDirect BinOp.eq (toVar (.vint 5)) (toVar IValue.vnil) =
      Res.ok (boolVar (ivalBeq (.vint 5) IValue.vnil)) ∧
    binOpDirect BinOp.eq (toVar (.vint 5)) (toVar (.vint 5)) =
      Res.ok (boolVar (ivalBeq (.vint 5) (.vint 5))) ∧
    binOpDirect BinOp.eq (toVar (.vint 5)) (toVar (.vstr "5")) =
      Res.err Code.BAD_OPERAND_TYPE :=
  ⟨(C8_eq_semantics (.vint 5) (.vint 5)).1,
   (C8_eq_semantics (.vint 5) (.vint 5)).2.2.1 rfl,
   (C8_eq_semantics (.vint 5) (.vstr "5")).2.2.2 (by decide) (by decide) (by decide)⟩

/-! ## C9: JUMPIFEQ/JUMPIFNEQ evaluation order -/

/-- C9: both symb operands of `JUMPIFEQ`/`JUMPIFNEQ` are evaluated before
the label-existence check, so an operand error (undefined variable 54,
dead frame 55, uninitialized 56) wins over an undeclared label; with both
operands fine, an undeclared label yields `UNDEF_REDEF` (52) even when the
operand types mismatch, because the type check comes after the label
check. -/
theorem C9_jumpif_operand_order :
    ∀ (fr : Frames) (labels : List (String × ℕ)) (a0 a1 a2 : Arg) (e : Code) (v w : Var),
      (fr.const_var a1 true = Res.err e →
        instJUMPIFEQ fr labels a0 a1 a2 = Res.err e ∧
        instJUMPIFNEQ fr labels a0 a1 a2 = Res.err e) ∧
      (fr.const_var a1 true = Res.ok v → fr.const_var a2 true = Res.err e →
        instJUMPIFEQ fr labels a0 a1 a2 = Res.err e ∧
        instJUMPIFNEQ fr labels a0 a1 a2 = Res.err e) ∧
      (fr.const_var a1 true = Res.ok v → fr.const_var a2 true = Res.ok w →
        (match labelKey a0.value with
         | some name => (alook labels name).isSome
         | none => false) = false →
        instJUMPIFEQ fr labels a0 a1 a2 = Res.err Code.UNDEF_REDEF ∧
        instJUMPIFNEQ fr labels a0 a1 a2 = Res.err Code.UNDEF_REDEF) := by
  intro fr labels a0 a1 a2 e v w
  refine ⟨?_, ?_, ?_⟩
  · intro h1
    constructor <;> simp [instJUMPIFEQ, instJUMPIFNEQ, h1, Bind.bind, Res.bind]
  · intro h1 h2
    constructor <;> simp [instJUMPIFEQ, instJUMPIFNEQ, h1, h2, Bind.bind, Res.bind]
  · intro h1 h2 h3
    constructor <;> simp [instJUMPIFEQ, instJUMPIFNEQ, h1, h2, h3, Bind.bind, Res.bind]

/-- Witness for C9: with an undefined `GF@x` and an undeclared label the
result is `UNDEF_VAR` (54), not 52; with two mismatched literals and an
undeclared label it is `UNDEF_REDEF` (52), not 53. -/
theorem C9_jumpif_operand_order_witness :
    instJUMPIFEQ Frames.empty [] ⟨"label", .str "L"⟩ (varArg "GF@x") (intArg 1) =
      Res.err Code.UNDEF_VAR ∧
    instJUMPIFEQ Frames.empty [] ⟨"label", .str "L"⟩ (intArg 1) (strArg "s") =
      Res.err Code.UNDEF_REDEF :=
  ⟨((C9_jumpif_operand_order Frames.empty [] ⟨"label", .str "L"⟩ (varArg "GF@x") (intArg 1)
      Code.UNDEF_VAR (intVar 1) (intVar 1)).1 (by decide)).1,
   ((C9_jumpif_operand_order Frames.empty [] ⟨"label", .str "L"⟩ (intArg 1) (strArg "s")
      Code.UNDEF_VAR (intVar 1) (strVar "s")).2.2 (by decide) (by decide) (by decide)).1⟩

/-! ## C10: TYPE and the initialization check -/

/-- C10: `TYPE` resolves its symb operand without the initialization
check: a defined but uninitialized variable stores the empty string into
the target, while an undefined variable still exits with `UNDEF_VAR` (54)
and a dead frame with `UNDEF_FRAME` (55). -/
theorem C10_type_bypass_init :
    ∀ (fr : Frames) (sid tid sn tn : String) (w : Var),
      (pySplit1 sid = some ("GF", sn) → alook fr.gf sn = some uninitVar →
        pySplit1 tid = some ("GF", tn) → alook fr.gf tn = some w →
        ∃ fr2, instTYPE fr (varArg tid) (varArg sid) = Res.ok fr2 ∧
          alook fr2.gf tn = some (strVar "")) ∧
      (pySplit1 sid = some ("GF", sn) → alook fr.gf sn = none →
        instTYPE fr (varArg tid) (varArg sid) = Res.err Code.UNDEF_VAR) ∧
      (pySplit1 sid = some ("LF", sn) → fr.lf_stack = [] →
        instTYPE fr (varArg tid) (varArg sid) = Res.err Code.UNDEF_FRAME) ∧
      (pySplit1 sid = some ("TF", sn) → fr.tf_created = false →
        instTYPE fr (varArg tid) (varArg sid) = Res.err Code.UNDEF_FRAME) := by
  intro fr sid tid sn tn w
  refine ⟨?_, ?_, ?_, ?_⟩
  · intro hs hlu ht hlw
    refine ⟨Frames.noteInit { fr with gf := aset fr.gf tn (strVar "") }, ?_, ?_⟩
    · simp [instTYPE, Frames.const_var, varArg, Frames.getvarP, hs, getFromFrame, hlu,
        uninitVar, Frames.setvarP, ht, hlw, Bind.bind, Res.bind]
    · exact alook_aset fr.gf tn (strVar "")
  · intro hs hl
    simp [instTYPE, Frames.const_var, varArg, Frames.getvarP, hs, getFromFrame, hl,
      Bind.bind, Res.bind]
  · intro hs hl
    simp [instTYPE, Frames.const_var, varArg, Frames.getvarP, hs, hl, Bind.bind, Res.bind]
  · intro hs hl
    simp [instTYPE, Frames.const_var, varArg, Frames.getvarP, hs, hl, Bind.bind, Res.bind]

/-- Witness for C10: a concrete frame with an uninitialized `GF@x` and a
target `GF@t`, and the two error cases. -/
theorem C10_type_bypass_init_witness :
    (∃ fr2, instTYPE ⟨[], [("t", uninitVar), ("x", uninitVar)], [], false, 0⟩
        (varArg "GF@t") (varArg "GF@x") = Res.ok fr2 ∧
      alook fr2.gf "t" = some (strVar "")) ∧
    instTYPE ⟨[], [("t", uninitVar)], [], false, 0⟩ (varArg "GF@t") (varArg "GF@y") =
      Res.err Code.UNDEF_VAR ∧
    instTYPE ⟨[], [("t", uninitVar)], [], false, 0⟩ (varArg "GF@t") (varArg "LF@y") =
      Res.err Code.UNDEF_FRAME :=
  ⟨(C10_type_bypass_init ⟨[], [("t", uninitVar), ("x", uninitVar)], [], false, 0⟩
      "GF@x" "GF@t" "x" "t" uninitVar).1 (by decide) (by decide) (by decide) (by decide),
   (C10_type_bypass_init ⟨[], [("t", uninitVar)], [], false, 0⟩
      "GF@y" "GF@t" "y" "t" uninitVar).2.1 (by decide) (by decide),
   (C10_type_bypass_init ⟨[], [("t", uninitVar)], [], false, 0⟩
      "LF@y" "GF@t" "y" "t" uninitVar).2.2.1 (by decide) (by decide)⟩

end IPP
